import Mathlib

/-!
Shallow embedding of the `text_to_speech` Django app
(`src/text_to_speech/views.py`, `serializers.py`, `urls.py`) and proofs
about its validation, language detection, file lifecycle and endpoint
orchestration logic.

Conventions of the embedding:
* Python strings are Lean `String`s; `len` is `String.length` (both count
  characters).
* A value read with `request.data.get(key)` may be absent, so it is an
  `Option String`; Python truthiness of a string-or-None value is `falsy`.
* Raised exceptions are modelled as values of `PyExc` carried in the
  `Outcome` of a view method; the surrounding framework's translation of an
  uncaught exception into an HTTP status is `dispatch`.
* The filesystem is an association list path → bytes (bytes as `String`),
  later writes shadowing earlier ones, matching `open(path, "wb")`.
* The external speech engine (`gTTS`) is an opaque parameter
  `synth : String → String → String` (text, lang ↦ audio bytes).
* Side effects of the synthesis/write pipeline are recorded in an `Event`
  trace so that "no synthesis call is made, no file is written" is the
  statement `events = []`.
-/

set_option autoImplicit false

namespace TTS

/-! ### Exception classes

`views.py` line 9 imports `ValidationError` from `django.core.exceptions`;
`serializers.ValidationError` (raised by `validate_request_data`) is
`rest_framework.exceptions.ValidationError`, a subclass of DRF's
`APIException` and a distinct class standing in no subclass relation to
Django's `ValidationError`. The remaining classes are the other exceptions
the viewed code can raise: DRF's `MethodNotAllowed`, Django's `Http404`
(from `get_object_or_404` / `get_object`), Django ORM's
`MultipleObjectsReturned` (from `queryset.get` with a non-unique filter),
Python's builtin `AttributeError` and `FileNotFoundError` (from `open`).
None of these classes is a subclass of another, so the `except` clause
check `excMatches` is class equality. -/
inductive ExcClass where
  | drfValidationError
  | djangoValidationError
  | methodNotAllowed
  | http404
  | multipleObjectsReturned
  | attributeError
  | fileNotFoundError
  deriving DecidableEq, Repr

/-- A raised Python exception: its class and its payload (for DRF's
`ValidationError` the detail dict `{"error": message}`). -/
structure PyExc where
  cls : ExcClass
  detail : List (String × String)
  deriving DecidableEq, Repr

/-- `except C` catches a raised exception of class `c` iff `c` is `C` or a
subclass; the modelled classes have no subclass relations, so this is
class equality. -/
def excMatches (clause : ExcClass) (raised : ExcClass) : Bool :=
  clause == raised

/-! ### Validation (`views.py` lines 21-24, 133-170) -/

def MIN_TEXT_LENGTH : Nat := 10
def MIN_FILE_NAME_LENGTH : Nat := 5
def MAX_TEXT_LENGTH : Nat := 700
def MAX_FILE_NAME_LENGTH : Nat := 20

/-- Python truthiness test `not x` for `x` a string or `None`
(`request.data.get` returns `None` when the key is absent): `None` and the
empty string are falsy. -/
def falsy : Option String → Bool
  | none => true
  | some s => s.length == 0

/-- `len(x)` for the string-or-None values of the view; in the source
`len` is only ever reached after the truthiness check guaranteed the
value is a non-empty string, so the `none` case is arbitrary. -/
def pyLen : Option String → Nat
  | none => 0
  | some s => s.length

def errTextEmpty : PyExc :=
  ⟨.drfValidationError, [("error", "Текст не может быть пустым.")]⟩

def errTextTooShort : PyExc :=
  ⟨.drfValidationError,
   [("error", "Текст не может быть меньше " ++ toString MIN_TEXT_LENGTH ++ " символов.")]⟩

def errFileNameEmpty : PyExc :=
  ⟨.drfValidationError, [("error", "Имя файла не может быть пустым.")]⟩

def errFileNameTooShort : PyExc :=
  ⟨.drfValidationError,
   [("error", "Имя файла не может быть меньше " ++ toString MIN_FILE_NAME_LENGTH ++ " символов.")]⟩

def errTextTooLong : PyExc :=
  ⟨.drfValidationError,
   [("error", "Текст не может быть больше " ++ toString MAX_TEXT_LENGTH ++ " символов.")]⟩

def errFileNameTooLong : PyExc :=
  ⟨.drfValidationError,
   [("error", "Имя файла не может быть больше " ++ toString MAX_FILE_NAME_LENGTH ++ " символов.")]⟩

/-- `BaseTextToSpeechView.validate_request_data` (`views.py` 133-170): the
six checks in source order as an if/elif chain, raising
`serializers.ValidationError` (DRF's class) at the first failure; pure
otherwise. -/
def validate_request_data (text file_name : Option String) : Except PyExc Unit :=
  if falsy text then .error errTextEmpty
  else if pyLen text < MIN_TEXT_LENGTH then .error errTextTooShort
  else if falsy file_name then .error errFileNameEmpty
  else if pyLen file_name < MIN_FILE_NAME_LENGTH then .error errFileNameTooShort
  else if pyLen text > MAX_TEXT_LENGTH then .error errTextTooLong
  else if pyLen file_name > MAX_FILE_NAME_LENGTH then .error errFileNameTooLong
  else .ok ()

/-- Every error `validate_request_data` raises is a DRF
`serializers.ValidationError`. -/
theorem validate_error_cls (text file_name : Option String) (e : PyExc)
    (h : validate_request_data text file_name = .error e) :
    e.cls = .drfValidationError := by
  unfold validate_request_data at h
  repeat' split at h
  all_goals
    first
    | exact Except.noConfusion h
    | (injection h with h2; subst h2; rfl)

/-! ### Language detection (`views.py` lines 200-201)

`re.search(r"[Ѐ-ӿ]|[Ԁ-ԯ]", text)` with
`lang = "ru" if match else "en"`. -/

/-- One character matches the regex character classes
`[Ѐ-ӿ]|[Ԁ-ԯ]`. -/
def isCyrillicChar (c : Char) : Bool :=
  (0x400 ≤ c.toNat && c.toNat ≤ 0x4ff) || (0x500 ≤ c.toNat && c.toNat ≤ 0x52f)

/-- `re.search` over the text: does any character match? -/
def hasCyrillic (text : String) : Bool :=
  text.data.any isCyrillicChar

/-- `lang = "ru" if match else "en"` (`views.py` line 201). -/
def detectLang (text : String) : String :=
  if hasCyrillic text then "ru" else "en"

/-! ### Filesystem and side-effect trace -/

/-- The server's filesystem: path → file contents (bytes as `String`),
first match wins, so a later `write` shadows an earlier one like
`open(path, "wb")` truncating and rewriting the file. -/
structure FS where
  files : List (String × String)
  deriving DecidableEq, Repr

def FS.write (fs : FS) (path data : String) : FS :=
  ⟨(path, data) :: fs.files⟩

def FS.read (fs : FS) (path : String) : Option String :=
  (fs.files.find? (fun p => p.1 == path)).map (·.2)

/-- Observable side effects of the synthesis/write pipeline. -/
inductive Event where
  | synthCall (text lang : String)
  | fileWrite (path : String)
  deriving DecidableEq, Repr

/-! ### `TextToSpeechView.user_text` (`views.py` lines 188-211) -/

structure UserTextResult where
  fs : FS
  events : List Event
  voice_path : String
  deriving DecidableEq, Repr

/-- `TextToSpeechView.user_text(file_name, text)`: detect the language,
call the external engine (`gTTS(text=text, lang=lang)`, opaque `synth`),
write the bytes to `voice/{file_name}.mp3` and return that path. -/
def user_text (synth : String → String → String) (fs : FS)
    (file_name text : String) : UserTextResult :=
  let lang := detectLang text
  let audio := synth text lang
  let voice_path := "voice/" ++ file_name ++ ".mp3"
  { fs := fs.write voice_path audio
    events := [.synthCall text lang, .fileWrite voice_path]
    voice_path := voice_path }

/-! ### The persisted record and database

`src/text_to_speech/models.py` is not part of the given sources; only its
importers are. -/

/-- Modelled from the spec: the `Text_to_speech` model of the missing
`src/text_to_speech/models.py` — §3 of the spec lists its fields: `text`,
`file_name`, `voice_path` (the model field the views call `voice`),
`created_at` ("timestamp, set once at creation"; `Option` so the `put`
gate `created_at is not None` is expressible), `owner` (a user reference,
here an id). `id` is the Django implicit primary key used by the
`/text-to-speech/<int:pk>/` route. -/
structure Text_to_speech where
  id : Nat
  text : String
  file_name : String
  voice : String
  created_at : Option Nat
  owner : Nat
  deriving DecidableEq, Repr

/-- The record store (external datastore): list of persisted records. -/
abbrev DB := List Text_to_speech

/-- Django's `queryset.get(pk=pk)` as used by DRF's
`GenericAPIView.get_object`: a fresh fetch from the datastore on every
call (no caching across calls). -/
def getObject (db : DB) (pk : Nat) : Option Text_to_speech :=
  db.find? (fun r => r.id == pk)

/-! ### Serializer (`serializers.py` lines 5-8) and request data -/

/-- `TextToSpeechSerializer.Meta.fields`: the only fields the serializer
reads from request data and writes into a response body. -/
def serializerFields : List String := ["text", "file_name"]

/-- `serializer.data` for a saved instance: the declared fields only. -/
def serialize (r : Text_to_speech) : List (String × String) :=
  [("text", r.text), ("file_name", r.file_name)]

/-- `request.data`: a string-keyed dict. -/
abbrev Data := List (String × String)

/-- `request.data.get(key)`. -/
def Data.get (d : Data) (key : String) : Option String :=
  (d.find? (fun p => p.1 == key)).map (·.2)

/-- `request.data[key] = value`. -/
def Data.set (d : Data) (key value : String) : Data :=
  (key, value) :: d

/-- `ModelSerializer.is_valid` + `save()` for a create: `validated_data`
holds exactly the declared fields (`text`, `file_name`); any other key in
`request.data` — in particular the `voice` the view injected — is
dropped. Modelled from the spec for the parts living in the missing
`models.py`: `created_at` is stamped at creation (§3 "set once at
creation"), `owner` is the authenticated requester, and the `voice` model
field, not being in `validated_data`, keeps its model default (modelled
as the empty string). Returns `none` when a required declared field is
absent (serializer validation failure). -/
def serializer_create (d : Data) (newId now ownerId : Nat) :
    Option Text_to_speech :=
  match d.get "text", d.get "file_name" with
  | some t, some f =>
      some { id := newId, text := t, file_name := f, voice := ""
             created_at := some now, owner := ownerId }
  | _, _ => none

/-- `UpdateAPIView`'s `perform_update` through the serializer: only the
declared fields `text` and `file_name` of the matching record change. -/
def updateMeta (db : DB) (pk : Nat) (t f : String) : DB :=
  db.map (fun r => if r.id == pk then { r with text := t, file_name := f } else r)

/-! ### View outcomes and the framework's exception translation -/

/-- What a view method hands back to the framework: a constructed
`Response(body, status)`, a `FileResponse` with a `Content-Disposition`
header, or an exception that escaped the method. -/
inductive Outcome where
  | response (status : Nat) (body : List (String × String))
  | fileResponse (content : String) (contentDisposition : String)
  | pyexc (e : PyExc)
  deriving DecidableEq, Repr

/-- HTTP status the framework assigns to an exception that escapes a view
method, per DRF's documented `exception_handler`: `APIException`
subclasses carry their own status (`rest_framework`'s `ValidationError`
→ 400, `MethodNotAllowed` → 405), Django's `Http404` → 404; every other
exception — Django's `ValidationError`, `MultipleObjectsReturned`,
builtin `AttributeError` and `FileNotFoundError` — is unhandled and
becomes a 500 server error. -/
def excStatus : ExcClass → Nat
  | .drfValidationError => 400
  | .methodNotAllowed => 405
  | .http404 => 404
  | .djangoValidationError => 500
  | .multipleObjectsReturned => 500
  | .attributeError => 500
  | .fileNotFoundError => 500

/-- The HTTP status the client finally sees for a view outcome. -/
def dispatch : Outcome → Nat
  | .response s _ => s
  | .fileResponse _ _ => 200
  | .pyexc e => excStatus e.cls

/-- Result of running a view method: datastore and filesystem after the
call, the side-effect trace, and the outcome. -/
structure ViewResult where
  db : DB
  fs : FS
  events : List Event
  outcome : Outcome
  deriving Repr

/-! ### `TextToSpeechView.post` (`views.py` lines 213-235) -/

/-- Fresh primary key assigned by the datastore on insert. -/
def freshId (db : DB) : Nat := db.length + 1

/-- `TextToSpeechView.post`: read `text` and `file_name` from
`request.data`; `try` `validate_request_data`. The `except` clause names
the imported `django.core.exceptions.ValidationError` (`views.py` line
9), so it catches a raised exception only when its class is Django's —
otherwise the exception escapes `post`. In the `else` branch (validation
raised nothing): `user_text` synthesises and writes the file,
`request.data["voice"]` is set to the returned path, and
`super().post` (DRF `CreateAPIView`) runs the serializer over
`request.data` and answers `201` with `serializer.data`. Validation ok
guarantees `text`/`file_name` are present non-empty strings, so `getD ""`
never supplies its default on the executed path. -/
def TextToSpeechView.post (synth : String → String → String) (db : DB)
    (fs : FS) (now ownerId : Nat) (d : Data) : ViewResult :=
  match validate_request_data (Data.get d "text") (Data.get d "file_name") with
  | .error e =>
      if excMatches .djangoValidationError e.cls then
        { db := db, fs := fs, events := [], outcome := .response 400 e.detail }
      else
        { db := db, fs := fs, events := [], outcome := .pyexc e }
  | .ok () =>
      let t := (Data.get d "text").getD ""
      let f := (Data.get d "file_name").getD ""
      let r := user_text synth fs f t
      let d2 := Data.set d "voice" r.voice_path
      match serializer_create d2 (freshId db) now ownerId with
      | some rec =>
          { db := db ++ [rec], fs := r.fs, events := r.events
            outcome := .response 201 (serialize rec) }
      | none =>
          { db := db, fs := r.fs, events := r.events
            outcome := .pyexc ⟨.drfValidationError, []⟩ }

/-! ### `TextToSpeechDetailView` (`views.py` lines 238-300) -/

/-- The attribute names an instance of `TextToSpeechDetailView` can
resolve through its method resolution order
`TextToSpeechDetailView → BaseTextToSpeechView →
RetrieveUpdateDestroyAPIView → … → GenericAPIView`: its own
`update_voice` and `put`, the base's `validate_request_data`, and the
framework mixins' handlers and helpers. `user_text` is absent: it is
defined only on `TextToSpeechView` (`views.py` line 188), which is not in
this MRO. -/
def TextToSpeechDetailView.attributeNames : List String :=
  ["update_voice", "put", "validate_request_data",
   "get", "patch", "delete", "get_object", "get_queryset", "get_serializer"]

/-- `TextToSpeechDetailView.update_voice(file_name, text)` (`views.py`
lines 255-271). The body's first statement is
`voice_path = self.user_text(file_name, text)`: attribute lookup of
`user_text` on the instance fails (see
`TextToSpeechDetailView.attributeNames`), raising `AttributeError` before
anything runs. The never-reached remainder is still modelled: it would
synthesise and write the file, set `voice` on one freshly fetched
instance (`self.get_object().voice = voice_path`) — a mutation of a
transient copy — and then call `.save()` on a second freshly fetched,
unmodified instance, writing back unchanged fields. -/
def TextToSpeechDetailView.update_voice (synth : String → String → String)
    (db : DB) (fs : FS) (pk : Nat) (file_name text : String) :
    DB × FS × List Event × Option PyExc :=
  if "user_text" ∈ TextToSpeechDetailView.attributeNames then
    let r := user_text synth fs file_name text
    match getObject db pk with
    | some obj =>
        let _mutatedCopy := { obj with voice := r.voice_path }
        match getObject db pk with
        | some obj2 =>
            (db.map (fun q => if q.id == pk then obj2 else q), r.fs, r.events, none)
        | none => (db, r.fs, r.events, some ⟨.http404, []⟩)
    | none => (db, r.fs, r.events, some ⟨.http404, []⟩)
  else
    (db, fs, [], some ⟨.attributeError,
      [("error", "TextToSpeechDetailView object has no attribute user_text")]⟩)

/-- The attribute names the `rest_framework.serializers` module exposes
among those the viewed code references on it: `serializers.ValidationError`
exists (the module imports `ErrorDetail` and `ValidationError` from
`rest_framework.exceptions`), as do the serializer classes, but
`MethodNotAllowed` lives in `rest_framework.exceptions` and is never
re-exported by the serializers module, so evaluating
`serializers.MethodNotAllowed` raises `AttributeError`. -/
def serializersModuleAttributeNames : List String :=
  ["ValidationError", "ErrorDetail", "Serializer", "ModelSerializer"]

/-- `TextToSpeechDetailView.put` (`views.py` lines 273-300): `try`
validation with the same dead `except django ValidationError` clause as
`post`; then `if self.get_object().created_at is not None: raise
serializers.MethodNotAllowed("PUT")` — but that raise line first looks up
`MethodNotAllowed` on the `rest_framework.serializers` module, which does
not export it (see `serializersModuleAttributeNames`), so the line raises
`AttributeError` before any `MethodNotAllowed` instance is constructed;
the intended raise in the then-branch of the lookup test is dead. Then
`super().put` (DRF `UpdateAPIView`) persists the serializer's declared
fields; then `self.update_voice(file_name, text)`; then the update
response is returned. An exception from `update_voice` escapes `put`
before that return. (`get_object` raises `Http404` when no record has
the pk.) -/
def TextToSpeechDetailView.put (synth : String → String → String) (db : DB)
    (fs : FS) (pk : Nat) (d : Data) : ViewResult :=
  match validate_request_data (Data.get d "text") (Data.get d "file_name") with
  | .error e =>
      if excMatches .djangoValidationError e.cls then
        { db := db, fs := fs, events := [], outcome := .response 400 e.detail }
      else
        { db := db, fs := fs, events := [], outcome := .pyexc e }
  | .ok () =>
      match getObject db pk with
      | none => { db := db, fs := fs, events := [], outcome := .pyexc ⟨.http404, []⟩ }
      | some obj =>
          if obj.created_at.isSome then
            if "MethodNotAllowed" ∈ serializersModuleAttributeNames then
              { db := db, fs := fs, events := []
                outcome := .pyexc ⟨.methodNotAllowed, [("method", "PUT")]⟩ }
            else
              { db := db, fs := fs, events := []
                outcome := .pyexc ⟨.attributeError,
                  [("error",
                    "module rest_framework.serializers has no attribute MethodNotAllowed")]⟩ }
          else
            let t := (Data.get d "text").getD ""
            let f := (Data.get d "file_name").getD ""
            let db1 := updateMeta db pk t f
            match TextToSpeechDetailView.update_voice synth db1 fs pk f t with
            | (db2, fs2, evs, some e) =>
                { db := db2, fs := fs2, events := evs, outcome := .pyexc e }
            | (db2, fs2, evs, none) =>
                { db := db2, fs := fs2, events := evs
                  outcome := .response 200 (serialize { obj with text := t, file_name := f }) }

/-! ### `DownloadVoiceView.retrieve` (`views.py` lines 323-342) -/

/-- `DownloadVoiceView.retrieve(request, file_name)`:
`get_object_or_404(queryset, file_name=file_name)` — `queryset.get` on
the filtered records: none → `Http404`, more than one →
`MultipleObjectsReturned`; with the unique match, `open(voice_path,
"rb")` — `FileNotFoundError` when the path is not on disk; otherwise a
`FileResponse` with
`Content-Disposition: attachment; filename="{file_name}.mp3"` built from
the record's `file_name`. -/
def DownloadVoiceView.retrieve (db : DB) (fs : FS) (file_name : String) :
    Outcome :=
  match db.filter (fun r => r.file_name == file_name) with
  | [] => .pyexc ⟨.http404, []⟩
  | [r] =>
      match fs.read r.voice with
      | none => .pyexc ⟨.fileNotFoundError, [("path", r.voice)]⟩
      | some content =>
          .fileResponse content
            ("attachment; filename=\"" ++ r.file_name ++ ".mp3\"")
  | _ => .pyexc ⟨.multipleObjectsReturned, []⟩

/-! ## Helper lemmas -/

/-- Characterization of successful validation. -/
theorem validate_ok_iff (text file_name : Option String) :
    validate_request_data text file_name = .ok () ↔
      ∃ t f, text = some t ∧ file_name = some f ∧
        MIN_TEXT_LENGTH ≤ t.length ∧ t.length ≤ MAX_TEXT_LENGTH ∧
        MIN_FILE_NAME_LENGTH ≤ f.length ∧ f.length ≤ MAX_FILE_NAME_LENGTH := by
  unfold validate_request_data
  cases text <;> cases file_name <;>
      simp [falsy, pyLen, MIN_TEXT_LENGTH, MAX_TEXT_LENGTH,
        MIN_FILE_NAME_LENGTH, MAX_FILE_NAME_LENGTH] <;>
    split_ifs <;> simp_all

/-- An ASCII letter A–Z or a–z. -/
def isAsciiLetter (c : Char) : Bool :=
  (65 ≤ c.toNat && c.toNat ≤ 90) || (97 ≤ c.toNat && c.toNat ≤ 122)

/-- Fifteen Cyrillic capital А characters (U+0410). -/
def cyr15 : String := "ААААААААААААААА"

/-- The regex match succeeds iff some character lies in the two Cyrillic
block ranges. -/
theorem hasCyrillic_iff (text : String) :
    hasCyrillic text = true ↔
      ∃ c ∈ text.data, (0x400 ≤ c.toNat ∧ c.toNat ≤ 0x4ff) ∨
        (0x500 ≤ c.toNat ∧ c.toNat ≤ 0x52f) := by
  simp [hasCyrillic, isCyrillicChar, List.any_eq_true, Bool.or_eq_true,
    Bool.and_eq_true, decide_eq_true_eq]

/-- The `except` clause for Django's `ValidationError` does not catch
DRF's. -/
theorem excMatches_django_drf :
    excMatches ExcClass.djangoValidationError ExcClass.drfValidationError =
      false := rfl

/-- Reading a key another key was pushed over is reading the original
dict. -/
theorem Data.get_set_ne (d : Data) (k v k' : String) (h : (k == k') = false) :
    Data.get (Data.set d k v) k' = Data.get d k' := by
  simp [Data.get, Data.set, List.find?, h]

/-! ## Claims -/

/-- C1: `validate_request_data(text, file_name)` raises its six
validation errors in the strict source order — text empty/absent,
`len(text) < 10`, file_name empty/absent, `len(file_name) < 5`,
`len(text) > 700`, `len(file_name) > 20` — short-circuiting at the first
failing check (each conjunct pins the raised error under exactly the
hypotheses "every earlier check passed, this one fails"), and it returns
without error exactly when `10 ≤ len(text) ≤ 700` and
`5 ≤ len(file_name) ≤ 20`; it is a pure function of its two arguments,
touching neither the datastore nor the filesystem. -/
theorem C1_validate_order (text file_name : Option String) :
    (falsy text = true →
      validate_request_data text file_name = .error errTextEmpty) ∧
    (falsy text = false → pyLen text < MIN_TEXT_LENGTH →
      validate_request_data text file_name = .error errTextTooShort) ∧
    (falsy text = false → MIN_TEXT_LENGTH ≤ pyLen text → falsy file_name = true →
      validate_request_data text file_name = .error errFileNameEmpty) ∧
    (falsy text = false → MIN_TEXT_LENGTH ≤ pyLen text → falsy file_name = false →
      pyLen file_name < MIN_FILE_NAME_LENGTH →
      validate_request_data text file_name = .error errFileNameTooShort) ∧
    (falsy text = false → MIN_TEXT_LENGTH ≤ pyLen text → falsy file_name = false →
      MIN_FILE_NAME_LENGTH ≤ pyLen file_name → MAX_TEXT_LENGTH < pyLen text →
      validate_request_data text file_name = .error errTextTooLong) ∧
    (falsy text = false → MIN_TEXT_LENGTH ≤ pyLen text → falsy file_name = false →
      MIN_FILE_NAME_LENGTH ≤ pyLen file_name → pyLen text ≤ MAX_TEXT_LENGTH →
      MAX_FILE_NAME_LENGTH < pyLen file_name →
      validate_request_data text file_name = .error errFileNameTooLong) ∧
    (validate_request_data text file_name = .ok () ↔
      ∃ t f, text = some t ∧ file_name = some f ∧
        MIN_TEXT_LENGTH ≤ t.length ∧ t.length ≤ MAX_TEXT_LENGTH ∧
        MIN_FILE_NAME_LENGTH ≤ f.length ∧ f.length ≤ MAX_FILE_NAME_LENGTH) := by
  refine ⟨?_, ?_, ?_, ?_, ?_, ?_, validate_ok_iff text file_name⟩
  · intro h1
    simp [validate_request_data, h1]
  · intro h1 h2
    simp [validate_request_data, h1, h2]
  · intro h1 h2 h3
    simp [validate_request_data, h1, h3, Nat.not_lt.mpr h2]
  · intro h1 h2 h3 h4
    simp [validate_request_data, h1, h3, h4, Nat.not_lt.mpr h2]
  · intro h1 h2 h3 h4 h5
    simp [validate_request_data, h1, h3, h5, Nat.not_lt.mpr h2, Nat.not_lt.mpr h4]
  · intro h1 h2 h3 h4 h5 h6
    simp [validate_request_data, h1, h3, h6, Nat.not_lt.mpr h2, Nat.not_lt.mpr h4,
      Nat.not_lt.mpr h5]

/-- Witness for C1: the first check fires on wholly absent data, and a
10-character text with a 5-character file name validates. -/
theorem C1_validate_order_witness :
    validate_request_data none none = Except.error errTextEmpty ∧
    validate_request_data (some "0123456789") (some "abcde") = Except.ok () := by
  constructor
  · exact (C1_validate_order none none).1 rfl
  · exact (C1_validate_order (some "0123456789") (some "abcde")).2.2.2.2.2.2.mpr
      ⟨"0123456789", "abcde", rfl, rfl, by decide, by decide, by decide, by decide⟩

/-- C4: the language detector returns `"ru"` iff the text has a character
in U+0400–U+04FF or U+0500–U+052F and `"en"` otherwise; `user_text` on
the 15-Cyrillic-character text calls the synthesis engine with `"ru"`,
and on an all-ASCII-letters text the detected code is `"en"`. -/
theorem C4_language_detection :
    (∀ text : String, detectLang text = "ru" ↔
      ∃ c ∈ text.data, (0x400 ≤ c.toNat ∧ c.toNat ≤ 0x4ff) ∨
        (0x500 ≤ c.toNat ∧ c.toNat ≤ 0x52f)) ∧
    (∀ text : String, detectLang text ≠ "ru" → detectLang text = "en") ∧
    (∀ (synth : String → String → String) (fs : FS),
      (user_text synth fs "abcde" cyr15).events =
        [Event.synthCall cyr15 "ru", Event.fileWrite "voice/abcde.mp3"]) ∧
    (∀ text : String, (∀ c ∈ text.data, isAsciiLetter c = true) →
      detectLang text = "en") := by
  have hne : ("en" : String) ≠ "ru" := by decide
  have key : ∀ text : String, detectLang text = "ru" ↔ hasCyrillic text = true := by
    intro text
    unfold detectLang
    by_cases h : hasCyrillic text
    · simp [h]
    · simp [h, hne]
  refine ⟨?_, ?_, ?_, ?_⟩
  · intro text
    rw [key text]
    exact hasCyrillic_iff text
  · intro text h
    unfold detectLang at h ⊢
    by_cases hc : hasCyrillic text
    · exact absurd (by simp [hc]) h
    · simp [hc]
  · intro synth fs
    rfl
  · intro text h
    have hc : hasCyrillic text = false := by
      rw [Bool.eq_false_iff]
      intro hcy
      obtain ⟨c, hmem, hr⟩ := (hasCyrillic_iff text).mp hcy
      have hac := h c hmem
      simp [isAsciiLetter, Bool.or_eq_true, Bool.and_eq_true,
        decide_eq_true_eq] at hac
      omega
    simp [detectLang, hc]

/-- Witness for C4: the Cyrillic sample text detects as `"ru"` and an
all-ASCII-letters text as `"en"`. -/
theorem C4_language_detection_witness :
    detectLang cyr15 = "ru" ∧ detectLang "HelloWorld" = "en" :=
  ⟨(C4_language_detection.1 cyr15).mpr ⟨'А', by decide, by decide⟩,
   C4_language_detection.2.2.2 "HelloWorld" (by decide)⟩

/-- C8: the stored path is deterministically
`"voice/" ++ file_name ++ ".mp3"`, reading that path back after a store
yields the bytes the engine produced for the stored text, and a second
store under the same `file_name` silently overwrites the first: the path
afterwards holds the second text's bytes. -/
theorem C8_voice_path_derivation (synth : String → String → String) (fs : FS)
    (file_name text text2 : String) :
    (user_text synth fs file_name text).voice_path =
      "voice/" ++ file_name ++ ".mp3" ∧
    FS.read (user_text synth fs file_name text).fs
        ("voice/" ++ file_name ++ ".mp3") =
      some (synth text (detectLang text)) ∧
    FS.read (user_text synth (user_text synth fs file_name text).fs
          file_name text2).fs
        ("voice/" ++ file_name ++ ".mp3") =
      some (synth text2 (detectLang text2)) := by
  refine ⟨rfl, ?_, ?_⟩ <;> simp [user_text, FS.read, FS.write, List.find?]

/-- C10: the exception `validate_request_data` raises on invalid input is
rest_framework's `serializers.ValidationError`, not an instance of the
`django.core.exceptions.ValidationError` named in `post`'s except clause,
so for every invalid input the exception propagates out of `post` and the
handler's own 400-response branch (returning `e.detail`) is never
taken. -/
theorem C10_validation_exception_propagates (synth : String → String → String)
    (db : DB) (fs : FS) (now ownerId : Nat) (d : Data) (e : PyExc)
    (hval : validate_request_data (Data.get d "text") (Data.get d "file_name") =
      .error e) :
    e.cls = ExcClass.drfValidationError ∧
    excMatches ExcClass.djangoValidationError e.cls = false ∧
    (TextToSpeechView.post synth db fs now ownerId d).outcome = .pyexc e ∧
    ∀ body, (TextToSpeechView.post synth db fs now ownerId d).outcome ≠
      Outcome.response 400 body := by
  have hcls := validate_error_cls _ _ _ hval
  have hm : excMatches ExcClass.djangoValidationError e.cls = false := by
    rw [hcls]; rfl
  refine ⟨hcls, hm, ?_, ?_⟩
  · unfold TextToSpeechView.post
    rw [hval]
    simp [hm]
  · intro body
    unfold TextToSpeechView.post
    rw [hval]
    simp [hm]

/-- Witness for C10 at a concrete invalid input (text present but
shorter than 10 characters). -/
theorem C10_validation_exception_propagates_witness :
    (TextToSpeechView.post (fun _ _ => "") [] ⟨[]⟩ 0 0
        [("text", "short")]).outcome = Outcome.pyexc errTextTooShort :=
  (C10_validation_exception_propagates (fun _ _ => "") [] ⟨[]⟩ 0 0
    [("text", "short")] errTextTooShort (by rfl)).2.2.1

/-- C3: a create request whose `text` or `file_name` fails validation is
answered with HTTP 400 (the unhandled DRF `ValidationError` carries
status 400 through the framework's exception handler), and before that no
side effect occurs: no record is persisted, the filesystem is unchanged,
and the event trace is empty (no synthesis call, no file write). -/
theorem C3_create_invalid_no_side_effect (synth : String → String → String)
    (db : DB) (fs : FS) (now ownerId : Nat) (d : Data) (e : PyExc)
    (hval : validate_request_data (Data.get d "text") (Data.get d "file_name") =
      .error e) :
    (TextToSpeechView.post synth db fs now ownerId d).db = db ∧
    (TextToSpeechView.post synth db fs now ownerId d).fs = fs ∧
    (TextToSpeechView.post synth db fs now ownerId d).events = [] ∧
    dispatch (TextToSpeechView.post synth db fs now ownerId d).outcome = 400 := by
  have hcls := validate_error_cls _ _ _ hval
  have hm : excMatches ExcClass.djangoValidationError e.cls = false := by
    rw [hcls]; rfl
  refine ⟨?_, ?_, ?_, ?_⟩ <;>
    · unfold TextToSpeechView.post
      rw [hval]
      simp [hcls, excMatches_django_drf, dispatch, excStatus]

/-- Witness for C3 at a concrete invalid input (valid text, 21-character
file name). -/
theorem C3_create_invalid_no_side_effect_witness :
    (TextToSpeechView.post (fun _ _ => "") [] ⟨[]⟩ 0 0
        [("text", "0123456789"), ("file_name", "abcdefghijklmnopqrstu")]).events
      = [] := by
  exact (C3_create_invalid_no_side_effect (fun _ _ => "") [] ⟨[]⟩ 0 0
    [("text", "0123456789"), ("file_name", "abcdefghijklmnopqrstu")]
    errFileNameTooLong (by rfl)).2.2.1

/-- C9 as stated is false: on this successful create (valid text, file
name `"abcde"`) the endpoint answers 201 and the computed voice path is
`"voice/abcde.mp3"`, but the response body is exactly the serializer's
declared fields `text` and `file_name` — no entry carries the key
`"voice"` or the computed path as value. -/
theorem C9_counterexample :
    (TextToSpeechView.post (fun _ _ => "AUDIO") [] ⟨[]⟩ 0 7
        [("text", "0123456789"), ("file_name", "abcde")]).outcome =
      Outcome.response 201 [("text", "0123456789"), ("file_name", "abcde")] ∧
    (user_text (fun _ _ => "AUDIO") ⟨[]⟩ "abcde" "0123456789").voice_path =
      "voice/abcde.mp3" ∧
    (∀ p ∈ [(("text" : String), ("0123456789" : String)),
        ("file_name", "abcde")], p.1 ≠ "voice" ∧ p.2 ≠ "voice/abcde.mp3") := by
  refine ⟨by decide, by decide, by decide⟩

/-- C9 amended: on a successful create the endpoint responds 201 with the
created record serialized through `TextToSpeechSerializer`, i.e. its
`text` and `file_name` fields only; the server-computed voice path is not
included in the body, the serializer's declared fields being limited to
`text` and `file_name`. -/
theorem C9_create_response_amended (synth : String → String → String)
    (db : DB) (fs : FS) (now ownerId : Nat) (d : Data) (t f : String)
    (ht : Data.get d "text" = some t) (hf : Data.get d "file_name" = some f)
    (hval : validate_request_data (Data.get d "text") (Data.get d "file_name") =
      .ok ()) :
    (TextToSpeechView.post synth db fs now ownerId d).outcome =
      .response 201 [("text", t), ("file_name", f)] := by
  unfold TextToSpeechView.post
  rw [hval]
  have h1 : Data.get (Data.set d "voice"
      (user_text synth fs (f) (t)).voice_path) "text" = some t := by
    rw [Data.get_set_ne _ _ _ _ (by decide)]; exact ht
  have h2 : Data.get (Data.set d "voice"
      (user_text synth fs (f) (t)).voice_path) "file_name" = some f := by
    rw [Data.get_set_ne _ _ _ _ (by decide)]; exact hf
  simp [ht, hf, serializer_create, h1, h2, serialize]

/-- Witness for the amended C9 at a concrete valid input. -/
theorem C9_create_response_amended_witness :
    (TextToSpeechView.post (fun _ _ => "A") [] ⟨[]⟩ 3 1
        [("text", "0123456789"), ("file_name", "abcde")]).outcome =
      Outcome.response 201 [("text", "0123456789"), ("file_name", "abcde")] :=
  C9_create_response_amended (fun _ _ => "A") [] ⟨[]⟩ 3 1
    [("text", "0123456789"), ("file_name", "abcde")] "0123456789" "abcde"
    (by rfl) (by rfl) (by rfl)

/-- C2 is the spec's intent, the code a slip: at this record whose
`created_at` is non-null and this payload passing validation, the PUT is
rejected before any modification — the datastore, the filesystem and the
event trace are untouched — but not with a method-not-allowed class
error: the rejecting line `raise serializers.MethodNotAllowed("PUT")`
looks up `MethodNotAllowed` on `rest_framework.serializers`, which does
not export it, so the line itself raises `AttributeError`, left unhandled
by the framework and surfaced as a 500 server error, not a 405. -/
theorem C2_put_immutable_attribute_error :
    (TextToSpeechDetailView.put (fun _ _ => "A")
        [⟨1, "0123456789", "abcde", "voice/abcde.mp3", some 11, 1⟩] ⟨[]⟩ 1
        [("text", "newtextnewtext"), ("file_name", "newname")]).db =
      [⟨1, "0123456789", "abcde", "voice/abcde.mp3", some 11, 1⟩] ∧
    (TextToSpeechDetailView.put (fun _ _ => "A")
        [⟨1, "0123456789", "abcde", "voice/abcde.mp3", some 11, 1⟩] ⟨[]⟩ 1
        [("text", "newtextnewtext"), ("file_name", "newname")]).fs = ⟨[]⟩ ∧
    (TextToSpeechDetailView.put (fun _ _ => "A")
        [⟨1, "0123456789", "abcde", "voice/abcde.mp3", some 11, 1⟩] ⟨[]⟩ 1
        [("text", "newtextnewtext"), ("file_name", "newname")]).events = [] ∧
    (TextToSpeechDetailView.put (fun _ _ => "A")
        [⟨1, "0123456789", "abcde", "voice/abcde.mp3", some 11, 1⟩] ⟨[]⟩ 1
        [("text", "newtextnewtext"), ("file_name", "newname")]).outcome =
      Outcome.pyexc ⟨.attributeError,
        [("error",
          "module rest_framework.serializers has no attribute MethodNotAllowed")]⟩ ∧
    dispatch (TextToSpeechDetailView.put (fun _ _ => "A")
        [⟨1, "0123456789", "abcde", "voice/abcde.mp3", some 11, 1⟩] ⟨[]⟩ 1
        [("text", "newtextnewtext"), ("file_name", "newname")]).outcome = 500 ∧
    dispatch (TextToSpeechDetailView.put (fun _ _ => "A")
        [⟨1, "0123456789", "abcde", "voice/abcde.mp3", some 11, 1⟩] ⟨[]⟩ 1
        [("text", "newtextnewtext"), ("file_name", "newname")]).outcome ≠ 405 := by
  refine ⟨by decide, by decide, by decide, by decide, by decide, by decide⟩

/-- C5: evaluated on a record whose `created_at` is null (the only way
past the gate) and a valid payload, the PUT persists the new metadata and
then crashes: `update_voice`'s first statement
`self.user_text(file_name, text)` raises `AttributeError` because
`user_text` is defined only on `TextToSpeechView`, not in
`TextToSpeechDetailView`'s method resolution order. No synthesis call or
file write happens, the persisted `voice` path stays `voice/oldname.mp3`
(stale), and the client sees a 500 server error — not the regeneration
and path reassignment the claim describes. -/
theorem C5_update_voice_attribute_error :
    (TextToSpeechDetailView.put (fun _ _ => "AUDIO")
        [⟨1, "oldtextoldtext", "oldname", "voice/oldname.mp3", none, 1⟩]
        ⟨[("voice/oldname.mp3", "OLD")]⟩ 1
        [("text", "newtextnewtext"), ("file_name", "newname")]).events = [] ∧
    (TextToSpeechDetailView.put (fun _ _ => "AUDIO")
        [⟨1, "oldtextoldtext", "oldname", "voice/oldname.mp3", none, 1⟩]
        ⟨[("voice/oldname.mp3", "OLD")]⟩ 1
        [("text", "newtextnewtext"), ("file_name", "newname")]).fs =
      ⟨[("voice/oldname.mp3", "OLD")]⟩ ∧
    (TextToSpeechDetailView.put (fun _ _ => "AUDIO")
        [⟨1, "oldtextoldtext", "oldname", "voice/oldname.mp3", none, 1⟩]
        ⟨[("voice/oldname.mp3", "OLD")]⟩ 1
        [("text", "newtextnewtext"), ("file_name", "newname")]).db =
      [⟨1, "newtextnewtext", "newname", "voice/oldname.mp3", none, 1⟩] ∧
    (TextToSpeechDetailView.put (fun _ _ => "AUDIO")
        [⟨1, "oldtextoldtext", "oldname", "voice/oldname.mp3", none, 1⟩]
        ⟨[("voice/oldname.mp3", "OLD")]⟩ 1
        [("text", "newtextnewtext"), ("file_name", "newname")]).outcome =
      Outcome.pyexc ⟨.attributeError,
        [("error", "TextToSpeechDetailView object has no attribute user_text")]⟩ ∧
    dispatch (TextToSpeechDetailView.put (fun _ _ => "AUDIO")
        [⟨1, "oldtextoldtext", "oldname", "voice/oldname.mp3", none, 1⟩]
        ⟨[("voice/oldname.mp3", "OLD")]⟩ 1
        [("text", "newtextnewtext"), ("file_name", "newname")]).outcome =
      500 := by
  refine ⟨by decide, by decide, by decide, by decide, by decide⟩

/-- C6: a download for a `file_name` with no matching record raises
`Http404` — a handled not-found, surfaced as 404, never an unhandled
server crash; with exactly one matching record whose voice file exists,
the download answers with the file's bytes as an attachment named
`{file_name}.mp3`. -/
theorem C6_download (db : DB) (fs : FS) (file_name : String) :
    (db.filter (fun r => r.file_name == file_name) = [] →
      DownloadVoiceView.retrieve db fs file_name = .pyexc ⟨.http404, []⟩ ∧
      dispatch (DownloadVoiceView.retrieve db fs file_name) = 404) ∧
    (∀ r content, db.filter (fun q => q.file_name == file_name) = [r] →
      FS.read fs r.voice = some content →
      DownloadVoiceView.retrieve db fs file_name =
        .fileResponse content
          ("attachment; filename=\"" ++ file_name ++ ".mp3\"")) := by
  constructor
  · intro h
    unfold DownloadVoiceView.retrieve
    rw [h]
    exact ⟨rfl, rfl⟩
  · intro r content h hread
    have hr : r ∈ db.filter (fun q => q.file_name == file_name) := by
      rw [h]; exact List.mem_singleton.mpr rfl
    have hfn : r.file_name = file_name := by
      have := (List.mem_filter.mp hr).2
      exact eq_of_beq this
    unfold DownloadVoiceView.retrieve
    rw [h]
    simp [hread, hfn]

/-- Witness for C6: an empty store 404s, and a one-record store with the
file on disk serves the attachment. -/
theorem C6_download_witness :
    DownloadVoiceView.retrieve [] ⟨[]⟩ "abcde" =
      Outcome.pyexc ⟨.http404, []⟩ ∧
    DownloadVoiceView.retrieve
        [⟨1, "0123456789", "abcde", "voice/abcde.mp3", some 0, 1⟩]
        ⟨[("voice/abcde.mp3", "AUDIO")]⟩ "abcde" =
      Outcome.fileResponse "AUDIO" "attachment; filename=\"abcde.mp3\"" := by
  constructor
  · exact ((C6_download [] ⟨[]⟩ "abcde").1 (by rfl)).1
  · exact (C6_download
      [⟨1, "0123456789", "abcde", "voice/abcde.mp3", some 0, 1⟩]
      ⟨[("voice/abcde.mp3", "AUDIO")]⟩ "abcde").2
      ⟨1, "0123456789", "abcde", "voice/abcde.mp3", some 0, 1⟩ "AUDIO"
      (by rfl) (by rfl)

/-- C7 as stated is false: at this concrete state — the record exists,
its `voice` path is absent from the filesystem — the download raises the
builtin `FileNotFoundError` from `open`, which the framework does not
translate: the client sees a 500 server error, not a 404. -/
theorem C7_counterexample :
    DownloadVoiceView.retrieve
        [⟨1, "0123456789", "abcde", "voice/abcde.mp3", some 0, 1⟩] ⟨[]⟩
        "abcde" =
      Outcome.pyexc ⟨.fileNotFoundError, [("path", "voice/abcde.mp3")]⟩ ∧
    dispatch (DownloadVoiceView.retrieve
        [⟨1, "0123456789", "abcde", "voice/abcde.mp3", some 0, 1⟩] ⟨[]⟩
        "abcde") = 500 ∧
    dispatch (DownloadVoiceView.retrieve
        [⟨1, "0123456789", "abcde", "voice/abcde.mp3", some 0, 1⟩] ⟨[]⟩
        "abcde") ≠ 404 := by
  refine ⟨by decide, by decide, by decide⟩

/-- C7 amended: for every record that exists (uniquely) but whose voice
file path is missing on disk, the download fails with the builtin
`FileNotFoundError`; the framework leaves it unhandled, so the client
sees a 500 server error, not a 404. -/
theorem C7_missing_file_server_error (db : DB) (fs : FS) (file_name : String)
    (r : Text_to_speech)
    (h : db.filter (fun q => q.file_name == file_name) = [r])
    (hread : FS.read fs r.voice = none) :
    DownloadVoiceView.retrieve db fs file_name =
      .pyexc ⟨.fileNotFoundError, [("path", r.voice)]⟩ ∧
    dispatch (DownloadVoiceView.retrieve db fs file_name) = 500 := by
  unfold DownloadVoiceView.retrieve
  rw [h]
  simp [hread, dispatch, excStatus]

/-- Witness for the amended C7: one matching record, empty filesystem. -/
theorem C7_missing_file_server_error_witness :
    dispatch (DownloadVoiceView.retrieve
        [⟨2, "0123456789", "fghij", "voice/fghij.mp3", some 0, 1⟩] ⟨[]⟩
        "fghij") = 500 :=
  (C7_missing_file_server_error
    [⟨2, "0123456789", "fghij", "voice/fghij.mp3", some 0, 1⟩] ⟨[]⟩ "fghij"
    ⟨2, "0123456789", "fghij", "voice/fghij.mp3", some 0, 1⟩
    (by rfl) (by rfl)).2

end TTS
